import Mathlib

/-!
Verification of the `concopy` partial-dump engine (`src/concopy/dump.py`).

The embedding models the `Dumper` class as explicit state passing: a `DState`
carries the connection flag (the source caches one connection in a
`cached_property`), the trace of DBMS/subprocess events, the archive file
operations performed by the `zipfile` context manager, the archive entries
written so far, and a pending error (a raised exception).  The live DBMS is an
oracle `Db`: the catalog rows returned by the metadata queries, the outputs of
the external `pg_dump` tool, and the CSV produced by `COPY ... TO STDOUT` for
a given SQL text.  The SQL `WHERE` clauses of the two catalog queries are
reified as Boolean filters over catalog rows; the SQL text templates are
embedded verbatim as string-producing functions mirroring Python's
`str.format`.
-/

set_option linter.unusedVariables false
set_option maxRecDepth 100000

namespace Concopy

/-- Character-list prefix test, used to state substring facts about the SQL
the code generates. -/
def chPrefix : List Char → List Char → Bool
  | [], _ => true
  | _ :: _, [] => false
  | p :: ps, c :: cs => p == c && chPrefix ps cs

/-- Character-list substring test. -/
def chInfix (p : List Char) : List Char → Bool
  | [] => chPrefix p []
  | c :: cs => chPrefix p (c :: cs) || chInfix p cs

/-- Whether `pat` occurs as a substring of `s`. -/
def hasSubstr (s pat : String) : Bool := chInfix pat.toList s.toList

/-- One row of the foreign-key metadata join (`information_schema.table_constraints`
joined with `key_column_usage` and `constraint_column_usage`), the shape both
`NON_RECURSIVE_RELATIONS_QUERY` and `RECURSIVE_RELATIONS_QUERY` select. -/
structure Row where
  constraint_name : String
  table_name : String
  column_name : String
  foreign_table_name : String
  foreign_column_name : String
  constraint_type : String
deriving DecidableEq, Repr

/-- The DBMS and external-tool oracle for one dump: catalog contents and the
bytes each data-returning call produces.  `copyResult` is the outcome of
`COPY (sql) TO STDOUT WITH CSV HEADER`: `Except.error` models a raised
`psycopg2` exception. -/
structure Db where
  tables : List String
  sequences : List String
  fkRows : List Row
  schemaOut : String
  seqOut : String
  copyResult : String → Except Unit String

/-- Connection-level events of a dump call.  `connect`/`setIsolation` model
the `cached_property connection` body (`psycopg2.connect` then
`set_isolation_level(ISOLATION_LEVEL_REPEATABLE_READ)`); `exec` a
`cursor.execute`, `copyTo` a `cursor.copy_expert`, `spawn` a `pg_dump`
subprocess.  `commit` is representable so that its absence is a statement
about the code: the source never calls it. -/
inductive Ev where
  | connect (connId : Nat)
  | setIsolation (connId : Nat) (level : String)
  | exec (connId : Nat) (sql : String)
  | copyTo (connId : Nat) (sql : String)
  | commit (connId : Nat)
  | spawn (args : String)
deriving DecidableEq, Repr

/-- Operations `dump` performs on the archive file: `Dump(filename, 'w')`
creates it, `writestr` appends an entry, the context manager closes it.
`remove` (file deletion) is representable so that its absence is a statement
about the code: the source never deletes the file. -/
inductive FsOp where
  | create
  | writeFile (path : String)
  | close
  | remove
deriving DecidableEq, Repr

/-- The explicit state threaded through one `dump` call. -/
structure DState where
  connected : Bool
  trace : List Ev
  fsOps : List FsOp
  entries : List (String × String)
  err : Option Unit
deriving DecidableEq, Repr

def DState.init : DState := ⟨false, [], [], [], none⟩

/-- `Dumper.connection` / `Dumper.cursor`: a `cached_property`, so connecting
and setting the isolation level happen once, on first use. -/
def connection (s : DState) : DState :=
  if s.connected then s
  else { s with connected := true,
                trace := s.trace ++ [Ev.connect 0,
                  Ev.setIsolation 0 "ISOLATION_LEVEL_REPEATABLE_READ"] }

/-- `Dumper.run`: `cursor.execute` of a metadata query (the rows it returns
are computed by the reified filters below); a no-op if an exception is
already propagating. -/
def run (s : DState) (tag : String) : DState :=
  if s.err.isSome then s
  else
    let s1 := connection s
    { s1 with trace := s1.trace ++ [Ev.exec 0 tag] }

/-- `Dumper.export_to_csv`: `cursor.copy_expert` of `COPY (sql) TO STDOUT
WITH CSV HEADER`; a failing copy raises, modelled by setting `err`. -/
def export_to_csv (db : Db) (s : DState) (sql : String) : DState × Option String :=
  if s.err.isSome then (s, none)
  else
    let s1 := connection s
    let s2 := { s1 with trace := s1.trace ++ [Ev.copyTo 0 sql] }
    match db.copyResult sql with
    | Except.ok data => (s2, some data)
    | Except.error _ => ({ s2 with err := some () }, none)

/-- `Dumper.pg_dump`: spawns the external tool and captures its stdout. -/
def pg_dump (s : DState) (args : String) (output : String) : DState × String :=
  if s.err.isSome then (s, "")
  else ({ s with trace := s.trace ++ [Ev.spawn args] }, output)

/-- `zipfile.ZipFile.writestr` on the open archive. -/
def writestr (s : DState) (path data : String) : DState :=
  if s.err.isSome then s
  else { s with entries := s.entries ++ [(path, data)],
                fsOps := s.fsOps ++ [FsOp.writeFile path] }

/-- `Dump.write_data`: writes `data` under `dump/data/<table_name>.csv`. -/
def write_data (s : DState) (table_name data : String) : DState :=
  writestr s ("dump/data/" ++ table_name ++ ".csv") data

/-- `Dumper.get_selectable_tables`: runs `SELECTABLE_TABLES_SQL`. -/
def get_selectable_tables (db : Db) (s : DState) : DState × List String :=
  (run s "SELECTABLE_TABLES_SQL", db.tables)

/-- `Dumper.dump_schema`: lists the selectable tables, then runs
`pg_dump -s -x -t <tables>`. -/
def dump_schema (db : Db) (s : DState) : DState × String :=
  let p := get_selectable_tables db s
  pg_dump p.1 "pg_dump -s -x -t selectable_tables" db.schemaOut

/-- `Dumper.write_schema`. -/
def write_schema (db : Db) (s : DState) : DState :=
  let p := dump_schema db s
  writestr p.1 "dump/schema.sql" p.2

/-- `Dumper.get_sequences`: runs `SEQUENCES_SQL`. -/
def get_sequences (db : Db) (s : DState) : DState × List String :=
  (run s "SEQUENCES_SQL", db.sequences)

/-- `Dumper.dump_sequences`. -/
def dump_sequences (db : Db) (s : DState) : DState × String :=
  let p := get_sequences db s
  pg_dump p.1 "pg_dump -a -t sequences" db.seqOut

/-- `Dumper.write_sequences`. -/
def write_sequences (db : Db) (s : DState) : DState :=
  let p := dump_sequences db s
  writestr p.1 "dump/sequences.sql" p.2

/-- The `WHERE` clause of `NON_RECURSIVE_RELATIONS_QUERY`:
`constraint_type = 'FOREIGN KEY' AND tc.table_name != ccu.table_name AND
tc.table_name = %(table_name)s`. -/
def nonRecursiveWhere (r : Row) (table_name : String) : Bool :=
  r.constraint_type == "FOREIGN KEY" && r.table_name != r.foreign_table_name &&
    r.table_name == table_name

/-- The `WHERE` clause of `RECURSIVE_RELATIONS_QUERY`:
`constraint_type = 'FOREIGN KEY' AND tc.table_name = ccu.table_name AND
tc.table_name = %(table_name)s`. -/
def recursiveWhere (r : Row) (table_name : String) : Bool :=
  r.constraint_type == "FOREIGN KEY" && r.table_name == r.foreign_table_name &&
    r.table_name == table_name

/-- The appended clause `AND ccu.table_name NOT IN %(full_tables)s`. -/
def notInFullTables (full_tables : List String) (r : Row) : Bool :=
  !(full_tables.contains r.foreign_table_name)

/-- Rows returned by `NON_RECURSIVE_RELATIONS_QUERY`; the `NOT IN` clause is
appended only when `full_tables` is truthy (non-empty), as in
`get_related_objects_queries`. -/
def runNonRecursiveRelations (db : Db) (table_name : String)
    (full_tables : List String) : List Row :=
  if full_tables.isEmpty then db.fkRows.filter (fun r => nonRecursiveWhere r table_name)
  else db.fkRows.filter (fun r => nonRecursiveWhere r table_name && notInFullTables full_tables r)

/-- Rows returned by `RECURSIVE_RELATIONS_QUERY`; the `NOT IN` clause is
appended only when `full_tables` is truthy (non-empty), as in
`write_partial_tables`. -/
def runRecursiveRelations (db : Db) (table_name : String)
    (full_tables : List String) : List Row :=
  if full_tables.isEmpty then db.fkRows.filter (fun r => recursiveWhere r table_name)
  else db.fkRows.filter (fun r => recursiveWhere r table_name && notInFullTables full_tables r)

/-- The SQL text tag executed for the non-recursive relations metadata query. -/
def nonRecursiveRelationsTag (full_tables : List String) : String :=
  if full_tables.isEmpty then "NON_RECURSIVE_RELATIONS_QUERY"
  else "NON_RECURSIVE_RELATIONS_QUERY AND ccu.table_name NOT IN full_tables"

/-- The SQL text tag executed for the recursive relations metadata query. -/
def recursiveRelationsTag (full_tables : List String) : String :=
  if full_tables.isEmpty then "RECURSIVE_RELATIONS_QUERY"
  else "RECURSIVE_RELATIONS_QUERY AND ccu.table_name NOT IN full_tables"

/-- `RELATED_ITEMS_FULL_QUERY.format(...)`, character for character (newlines
and trailing spaces as in the source). -/
def RELATED_ITEMS_FULL_QUERY (foreign_table foreign_column_name local_table
    local_column_name : String) : String :=
  "\nSELECT \n  * \nFROM " ++ foreign_table ++ " \nWHERE " ++ foreign_column_name ++
    " IN (\n  SELECT \n    DISTINCT " ++ local_column_name ++ " \n  FROM " ++
    local_table ++ " \n  WHERE " ++ local_column_name ++ " IS NOT NULL\n)\n"

/-- `RECURSIVE_QUERY_TEMPLATE.format(...)`, character for character (the
source never actually formats or executes this template). -/
def RECURSIVE_QUERY_TEMPLATE (target local_column_name foreign_column_name : String) :
    String :=
  "\nWITH RECURSIVE recursive_cte AS (\n  SELECT * \n  FROM non_recursive_cte\n  UNION\n  SELECT T.*\n  FROM " ++
    target ++ " T\n  INNER JOIN recursive_cte ON (recursive_cte." ++
    local_column_name ++ " = E." ++ foreign_column_name ++
    ")\n), non_recursive_cte AS (\n  SELECT * \n  FROM " ++ target ++
    "\n  WHERE \n)\nSELECT * FROM recursive_cte\n"

/-- A Python dict assignment `d[k] = v`: overwrites in place if the key is
present (keeping its position), else appends. -/
def pyDictInsert (d : List (String × String)) (k v : String) : List (String × String) :=
  if d.any (fun kv => kv.1 == k) then d.map (fun kv => if kv.1 == k then (kv.1, v) else kv)
  else d ++ [(k, v)]

/-- The dict comprehension of `get_related_objects_queries`, keyed by
`foreign_table_name`, valued by the formatted `RELATED_ITEMS_FULL_QUERY`. -/
def related_objects_dict (db : Db) (table_name : String)
    (full_tables : List String) : List (String × String) :=
  (runNonRecursiveRelations db table_name full_tables).foldl
    (fun d item => pyDictInsert d item.foreign_table_name
      (RELATED_ITEMS_FULL_QUERY item.foreign_table_name item.foreign_column_name
        table_name item.column_name))
    []

/-- `Dumper.get_related_objects_queries`: one metadata query plus the dict of
generated per-target SQL. -/
def get_related_objects_queries (db : Db) (s : DState) (table_name : String)
    (full_tables : List String) : DState × List (String × String) :=
  (run s (nonRecursiveRelationsTag full_tables),
   related_objects_dict db table_name full_tables)

/-- `Dumper.write_csv`: export the SQL's result and write it to the archive. -/
def write_csv (db : Db) (s : DState) (table_name sql : String) : DState :=
  let p := export_to_csv db s sql
  match p.2 with
  | some data => write_data p.1 table_name data
  | none => p.1

/-- `Dumper.write_full_tables`: for each table, compute (and discard) the
related queries, then write `SELECT * FROM <table>` as CSV. -/
def write_full_tables (db : Db) (s : DState) (tables : List String) : DState :=
  tables.foldl
    (fun s table_name =>
      if s.err.isSome then s
      else
        let p := get_related_objects_queries db s table_name tables
        write_csv db p.1 table_name ("SELECT * FROM " ++ table_name))
    s

/-- `Dumper.write_partial_tables`: for each `(table, sql)` of the config,
compute (and discard) the non-recursive related queries, run (and discard,
the source only prints it) the recursive relations metadata query, then
write the root's own CSV. -/
def write_partial_tables (db : Db) (s : DState) (config : List (String × String))
    (full_tables : List String) : DState :=
  config.foldl
    (fun s cfg =>
      if s.err.isSome then s
      else
        let p := get_related_objects_queries db s cfg.1 full_tables
        let s2 := run p.1 (recursiveRelationsTag full_tables)
        let _related := runRecursiveRelations db cfg.1 full_tables
        write_csv db s2 cfg.1 cfg.2)
    s

/-- Python `full_tables or ()` on an optional argument. -/
def pyOrList (x : Option (List String)) : List String :=
  match x with
  | none => []
  | some l => l

/-- Python `partial_tables or {}` on an optional argument; dicts are modelled
as association lists in insertion order. -/
def pyOrDict (x : Option (List (String × String))) : List (String × String) :=
  match x with
  | none => []
  | some l => l

/-- `Dumper.dump`: open the archive, write schema, sequences, full tables and
partial tables, close the archive (the `with` block closes it whether or not
an exception is propagating, and never deletes the file). -/
def dump (db : Db) (full_tables : Option (List String))
    (partial_config : Option (List (String × String))) : DState :=
  let fulls := pyOrList full_tables
  let cfg := pyOrDict partial_config
  let s0 := { DState.init with fsOps := [FsOp.create] }
  let s1 := write_schema db s0
  let s2 := write_sequences db s1
  let s3 := write_full_tables db s2 fulls
  let s4 := write_partial_tables db s3 cfg fulls
  { s4 with fsOps := s4.fsOps ++ [FsOp.close] }

/-- First-match lookup in an association-list environment. -/
def lookupEnv : List (String × String) → String → Option String
  | [], _ => none
  | kv :: rest, k => if kv.1 == k then some kv.2 else lookupEnv rest k

/-- `Dumper.pg_dump_environment`: `{**os.environ, 'PGPASSWORD': password}`
when `self.password` is truthy (a non-`None`, non-empty string), else
`os.environ.copy()`. -/
def pg_dump_environment (env : List (String × String)) :
    Option String → List (String × String)
  | some password => if password.isEmpty then env else pyDictInsert env "PGPASSWORD" password
  | none => env

/-- Events a single-connection, repeatable-read, commit-free dump may emit:
everything runs on connection 0, the only isolation level ever set is
repeatable read, and no commit is ever issued. -/
def evOk : Ev → Bool
  | Ev.connect i => i == 0
  | Ev.setIsolation i level => i == 0 && level == "ISOLATION_LEVEL_REPEATABLE_READ"
  | Ev.exec i _ => i == 0
  | Ev.copyTo i _ => i == 0
  | Ev.commit _ => false
  | Ev.spawn _ => true

/-- File operations the body of the `with` block may emit: only entry writes. -/
def fsOk : FsOp → Bool
  | FsOp.writeFile _ => true
  | _ => false

/-- One dump step extends the trace only with `evOk` events and the file
operations only with entry writes. -/
def StExtends (s t : DState) : Prop :=
  (∃ u, t.trace = s.trace ++ u ∧ u.all evOk = true) ∧
  (∃ w, t.fsOps = s.fsOps ++ w ∧ w.all fsOk = true)

/-- The state after the schema and sequence entries, from which the per-table
loops start: connected once, isolation set once, two entries written. -/
def afterSchemaSeq (db : Db) : DState :=
  { connected := true
    trace := [Ev.connect 0, Ev.setIsolation 0 "ISOLATION_LEVEL_REPEATABLE_READ",
              Ev.exec 0 "SELECTABLE_TABLES_SQL", Ev.spawn "pg_dump -s -x -t selectable_tables",
              Ev.exec 0 "SEQUENCES_SQL", Ev.spawn "pg_dump -a -t sequences"]
    fsOps := [FsOp.create, FsOp.writeFile "dump/schema.sql", FsOp.writeFile "dump/sequences.sql"]
    entries := [("dump/schema.sql", db.schemaOut), ("dump/sequences.sql", db.seqOut)]
    err := none }

/-- The archive path of a table's CSV entry. -/
def csvPath (t : String) : String := "dump/data/" ++ t ++ ".csv"

/-- Whether a copy result is a success. -/
def exOk : Except Unit String → Bool
  | Except.ok _ => true
  | Except.error _ => false

/-- A DBMS oracle on which no data extraction fails. -/
def okDb (db : Db) : Prop := ∀ sql, exOk (db.copyResult sql) = true

/-- Modelled from the spec: the §4.5/§8 archive entry order — schema,
sequences, full tables in input order, partial roots in input order, then
entries for their relation targets (here the direct, unpruned foreign-key
targets of each partial root, which the transitive closure of §4.3 must at
least contain). -/
def specEntryOrder (db : Db) (full_tables : List String)
    (config : List (String × String)) : List String :=
  ["dump/schema.sql", "dump/sequences.sql"] ++ full_tables.map csvPath ++
    config.map (fun tc => csvPath tc.1) ++
    (config.foldl (fun acc tc =>
      acc ++ (runNonRecursiveRelations db tc.1 full_tables).map
        (fun r => r.foreign_table_name)) []).map csvPath

/-- The fixture foreign-key edge `employees.group_id → groups.id` of the
repository's tests. -/
def employeesGroupsRow : Row :=
  { constraint_name := "employees_group_id_fkey"
    table_name := "employees"
    column_name := "group_id"
    foreign_table_name := "groups"
    foreign_column_name := "id"
    constraint_type := "FOREIGN KEY" }

/-- A concrete healthy oracle shaped like the repository's test fixture. -/
def db0 : Db :=
  { tables := ["groups", "employees"]
    sequences := ["groups_id_seq", "employees_id_seq"]
    fkRows := [employeesGroupsRow]
    schemaOut := "CREATE TABLE groups"
    seqOut := "setval groups_id_seq"
    copyResult := fun _ => Except.ok "id,name" }

/-- The same oracle with every data extraction failing. -/
def dbErr : Db := { db0 with copyResult := fun _ => Except.error () }

/-- A concrete partial-table config for the fixture. -/
def partialEmployees : List (String × String) :=
  [("employees", "SELECT * FROM employees WHERE id = 1")]

/-- The flat per-target query the code generates for the fixture edge. -/
def flatGroupsQuery : String :=
  "\nSELECT \n  * \nFROM groups \nWHERE id IN (\n  SELECT \n    DISTINCT group_id \n  FROM employees \n  WHERE group_id IS NOT NULL\n)\n"

/-- Sanity check of `afterSchemaSeq`: it is exactly the state `dump` reaches
after its schema and sequences steps. -/
theorem afterSchemaSeq_eval (db : Db) :
    write_sequences db (write_schema db { DState.init with fsOps := [FsOp.create] })
      = afterSchemaSeq db := rfl

theorem stExtends_refl (s : DState) : StExtends s s :=
  ⟨⟨[], by simp, rfl⟩, ⟨[], by simp, rfl⟩⟩

theorem stExtends_trans {s t u : DState} (h1 : StExtends s t) (h2 : StExtends t u) :
    StExtends s u := by
  obtain ⟨⟨a, ha, hae⟩, ⟨b, hb, hbe⟩⟩ := h1
  obtain ⟨⟨c, hc, hce⟩, ⟨d, hd, hde⟩⟩ := h2
  refine ⟨⟨a ++ c, ?_, ?_⟩, ⟨b ++ d, ?_, ?_⟩⟩
  · rw [hc, ha, List.append_assoc]
  · rw [List.all_append, hae, hce]; rfl
  · rw [hd, hb, List.append_assoc]
  · rw [List.all_append, hbe, hde]; rfl

theorem connection_stExtends (s : DState) : StExtends s (connection s) := by
  unfold connection
  by_cases h : s.connected
  · simp only [h, if_true]; exact stExtends_refl s
  · simp only [h, Bool.false_eq_true, if_false]
    exact ⟨⟨[Ev.connect 0, Ev.setIsolation 0 "ISOLATION_LEVEL_REPEATABLE_READ"], rfl, rfl⟩,
           ⟨[], by simp, rfl⟩⟩

theorem run_stExtends (s : DState) (tag : String) : StExtends s (run s tag) := by
  unfold run
  by_cases h : s.err.isSome
  · simp only [h, if_true]; exact stExtends_refl s
  · simp only [h, Bool.false_eq_true, if_false]
    refine stExtends_trans (connection_stExtends s) ?_
    exact ⟨⟨[Ev.exec 0 tag], rfl, by simp [evOk]⟩, ⟨[], by simp, rfl⟩⟩

theorem export_to_csv_stExtends (db : Db) (s : DState) (sql : String) :
    StExtends s (export_to_csv db s sql).1 := by
  unfold export_to_csv
  by_cases h : s.err.isSome
  · simp only [h, if_true]; exact stExtends_refl s
  · simp only [h, Bool.false_eq_true, if_false]
    cases hc : db.copyResult sql with
    | ok data =>
        simp only [hc]
        refine stExtends_trans (connection_stExtends s) ?_
        exact ⟨⟨[Ev.copyTo 0 sql], rfl, by simp [evOk]⟩, ⟨[], by simp, rfl⟩⟩
    | error e =>
        simp only [hc]
        refine stExtends_trans (connection_stExtends s) ?_
        exact ⟨⟨[Ev.copyTo 0 sql], rfl, by simp [evOk]⟩, ⟨[], by simp, rfl⟩⟩

theorem writestr_stExtends (s : DState) (path data : String) :
    StExtends s (writestr s path data) := by
  unfold writestr
  by_cases h : s.err.isSome
  · simp only [h, if_true]; exact stExtends_refl s
  · simp only [h, Bool.false_eq_true, if_false]
    exact ⟨⟨[], by simp, rfl⟩, ⟨[FsOp.writeFile path], rfl, by simp [fsOk]⟩⟩

theorem write_csv_stExtends (db : Db) (s : DState) (table_name sql : String) :
    StExtends s (write_csv db s table_name sql) := by
  have h1 := export_to_csv_stExtends db s sql
  unfold write_csv
  rcases hp : export_to_csv db s sql with ⟨s', d⟩
  rw [hp] at h1
  cases d with
  | none => exact h1
  | some data => exact stExtends_trans h1 (writestr_stExtends _ _ _)

theorem foldl_stExtends {α : Type} (f : DState → α → DState)
    (hf : ∀ s a, StExtends s (f s a)) :
    ∀ (l : List α) (s : DState), StExtends s (l.foldl f s)
  | [], s => stExtends_refl s
  | a :: l, s => stExtends_trans (hf s a) (foldl_stExtends f hf l (f s a))

theorem write_full_tables_stExtends (db : Db) (s : DState) (tables : List String) :
    StExtends s (write_full_tables db s tables) := by
  unfold write_full_tables
  refine foldl_stExtends _ ?_ tables s
  intro s' t
  by_cases h : s'.err.isSome
  · simp only [h, if_true]; exact stExtends_refl s'
  · simp only [h, Bool.false_eq_true, if_false]
    exact stExtends_trans (run_stExtends s' _) (write_csv_stExtends db _ t _)

theorem write_partial_tables_stExtends (db : Db) (s : DState)
    (config : List (String × String)) (full_tables : List String) :
    StExtends s (write_partial_tables db s config full_tables) := by
  unfold write_partial_tables
  refine foldl_stExtends _ ?_ config s
  intro s' cfg
  by_cases h : s'.err.isSome
  · simp only [h, if_true]; exact stExtends_refl s'
  · simp only [h, Bool.false_eq_true, if_false]
    refine stExtends_trans (run_stExtends s' (nonRecursiveRelationsTag full_tables)) ?_
    refine stExtends_trans
      (run_stExtends (run s' (nonRecursiveRelationsTag full_tables))
        (recursiveRelationsTag full_tables)) ?_
    exact write_csv_stExtends db _ cfg.1 cfg.2

/-- Every `dump` run is the schema/sequences prefix followed by well-behaved
trace events, and its file operations are the create/write prefix, entry
writes only, and a final close. -/
theorem dump_shape (db : Db) (f : Option (List String))
    (p : Option (List (String × String))) :
    (∃ u, (dump db f p).trace = (afterSchemaSeq db).trace ++ u ∧ u.all evOk = true) ∧
    (∃ w, (dump db f p).fsOps = ((afterSchemaSeq db).fsOps ++ w) ++ [FsOp.close] ∧
      w.all fsOk = true) := by
  have hext : StExtends (afterSchemaSeq db)
      (write_partial_tables db (write_full_tables db (afterSchemaSeq db) (pyOrList f))
        (pyOrDict p) (pyOrList f)) :=
    stExtends_trans (write_full_tables_stExtends db _ _)
      (write_partial_tables_stExtends db _ _ _)
  obtain ⟨⟨u, hu, hue⟩, ⟨w, hw, hwe⟩⟩ := hext
  constructor
  · exact ⟨u, hu, hue⟩
  · refine ⟨w, ?_, hwe⟩
    show (write_partial_tables db (write_full_tables db (afterSchemaSeq db) (pyOrList f))
        (pyOrDict p) (pyOrList f)).fsOps ++ [FsOp.close] = _
    rw [hw]

/-- Claim C1: for a partial root with a foreign-key edge to an unpruned
target, the planner never recurses and the archive holds no CSV entry for
the target at all: dumping `employees` (edge `group_id → groups`, empty
prune set) yields only the root's entry, although `groups` is reachable
(second conjunct: the edge is present and unpruned in the metadata result
the code itself fetches and then discards). -/
theorem c1_partial_dump_omits_reachable_target :
    (dump db0 (some []) (some partialEmployees)).entries.map Prod.fst
      = ["dump/schema.sql", "dump/sequences.sql", "dump/data/employees.csv"] ∧
    runNonRecursiveRelations db0 "employees" [] = [employeesGroupsRow] :=
  ⟨rfl, rfl⟩

/-- Claim C2: the flat selection generated for the edge
`employees.group_id → groups.id` keys on `SELECT DISTINCT group_id FROM
employees` — the whole root table — and contains no trace of the user's root
SQL (no wrapping subquery, no `LIMIT`): `get_related_objects_queries` never
even receives the root SQL. -/
theorem c2_flat_query_ranges_over_whole_root_table :
    related_objects_dict db0 "employees" [] = [("groups", flatGroupsQuery)] ∧
    hasSubstr flatGroupsQuery "DISTINCT group_id \n  FROM employees" = true ∧
    hasSubstr flatGroupsQuery "LIMIT" = false ∧
    hasSubstr flatGroupsQuery "WHERE id = 1" = false :=
  ⟨rfl, rfl, rfl, rfl⟩

/-- Claim C3: dumping `employees` as a full table, with its edge to `groups`
present and unpruned (second conjunct: the related-queries dict the code
computes and discards is non-empty), produces no `dump/data/groups.csv`
entry: `write_full_tables` never emits the relation targets. -/
theorem c3_full_table_relation_closure_not_dumped :
    (dump db0 (some ["employees"]) (some [])).entries.map Prod.fst
      = ["dump/schema.sql", "dump/sequences.sql", "dump/data/employees.csv"] ∧
    related_objects_dict db0 "employees" ["employees"] ≠ [] :=
  ⟨rfl, by decide⟩

/-- Claim C4 counterexample: a concrete dump call issues no commit at all,
refuting "committed (read-only) at the end". -/
theorem c4_counterexample_no_commit :
    Ev.commit 0 ∉ (dump db0 (some []) (some partialEmployees)).trace := by
  decide

/-- Claim C5: the recursive-CTE template instantiated at the fixture's
self-edge (`target = employees`, `local_column_name = manager_id`,
`foreign_column_name = id`) joins on the alias `E` (`= E.id)`) although the
only alias it defines is `T` (`FROM employees T`), and its non-recursive
branch has an empty `WHERE` clause — so the template is not the well-formed
shape the claim states (its `UNION` branch combiner is the one well-formed
part). -/
theorem c5_recursive_template_alias_and_where_malformed :
    hasSubstr (RECURSIVE_QUERY_TEMPLATE "employees" "manager_id" "id") " = E.id)" = true ∧
    hasSubstr (RECURSIVE_QUERY_TEMPLATE "employees" "manager_id" "id") "employees E" = false ∧
    hasSubstr (RECURSIVE_QUERY_TEMPLATE "employees" "manager_id" "id") "FROM employees T" = true ∧
    hasSubstr (RECURSIVE_QUERY_TEMPLATE "employees" "manager_id" "id") "WHERE \n)" = true ∧
    hasSubstr (RECURSIVE_QUERY_TEMPLATE "employees" "manager_id" "id") "UNION ALL" = false :=
  ⟨rfl, rfl, rfl, rfl, rfl⟩

/-- Claim C6 counterexample: with every data extraction failing, the dump
call errors after the schema and sequence entries, yet the archive file is
closed and left on disk — no remove operation ever happens. -/
theorem c6_counterexample_error_keeps_archive :
    (dump dbErr (some ["employees"]) (some [])).err = some () ∧
    FsOp.remove ∉ (dump dbErr (some ["employees"]) (some [])).fsOps ∧
    (dump dbErr (some ["employees"]) (some [])).fsOps.getLast? = some FsOp.close := by
  refine ⟨rfl, by decide, rfl⟩

/-- Claim C7 counterexample: for a partial root with an unpruned relation
target, the archive's entry list is not the spec's order (which ends with the
relation targets' entries): the target entry is missing entirely. -/
theorem c7_counterexample_missing_target_entries :
    (dump db0 (some []) (some partialEmployees)).entries.map Prod.fst ≠
      specEntryOrder db0 [] partialEmployees := by
  decide

/-- Claim C9 counterexample: with a configured password that is the empty
string, the child environment is returned unchanged and no `PGPASSWORD`
variable is added (Python's truthiness treats `""` like no password). -/
theorem c9_counterexample_empty_password :
    pg_dump_environment [] (some "") = [] ∧
    lookupEnv (pg_dump_environment [] (some "")) "PGPASSWORD" = none :=
  ⟨rfl, rfl⟩

/-- Claim C10: omitted (`None`) `full_tables` and `partial_tables` are
treated as empty; the call succeeds and the archive holds exactly the schema
entry followed by the sequences entry, and nothing under `dump/data/`. -/
theorem c10_defaults_give_schema_and_sequences_only (db : Db) :
    (dump db none none).entries
      = [("dump/schema.sql", db.schemaOut), ("dump/sequences.sql", db.seqOut)] ∧
    (dump db none none).err = none ∧
    dump db none none = dump db (some []) (some []) :=
  ⟨rfl, rfl, rfl⟩

/-- Claim C4 (amended): every dump call runs all its DBMS work on the single
cached connection 0, whose isolation level is set to repeatable read right
when it is created (on the call's first query), and never issues a commit —
`evOk` rules out any other connection id, any other isolation level, and any
commit event. -/
theorem c4_single_connection_repeatable_read_never_committed (db : Db)
    (f : Option (List String)) (p : Option (List (String × String))) :
    (dump db f p).trace.head? = some (Ev.connect 0) ∧
    (dump db f p).trace.get? 1
      = some (Ev.setIsolation 0 "ISOLATION_LEVEL_REPEATABLE_READ") ∧
    (dump db f p).trace.all evOk = true := by
  obtain ⟨⟨u, hu, hue⟩, -⟩ := dump_shape db f p
  refine ⟨?_, ?_, ?_⟩
  · rw [hu]; rfl
  · rw [hu]; rfl
  · rw [hu, List.all_append, hue, Bool.and_true]; rfl

/-- Claim C6 (amended): whatever happens during a dump call — including a
propagating error — the archive file is never removed; the last file
operation is always the context manager's close. -/
theorem c6_archive_closed_never_removed (db : Db) (f : Option (List String))
    (p : Option (List (String × String))) :
    FsOp.remove ∉ (dump db f p).fsOps ∧
    (dump db f p).fsOps.getLast? = some FsOp.close := by
  obtain ⟨-, ⟨w, hw, hwe⟩⟩ := dump_shape db f p
  constructor
  · rw [hw]
    intro hmem
    rcases List.mem_append.mp hmem with hmem | hmem
    · rcases List.mem_append.mp hmem with hmem | hmem
      · simp only [afterSchemaSeq] at hmem
        exact absurd hmem (by decide)
      · have hall := List.all_eq_true.mp hwe _ hmem
        simp [fsOk] at hall
    · simp at hmem
  · rw [hw, List.getLast?_concat]
theorem run_err_entries (s : DState) (tag : String) :
    (run s tag).err = s.err ∧ (run s tag).entries = s.entries := by
  unfold run connection
  by_cases h : s.err.isSome
  · simp [h]
  · by_cases h2 : s.connected <;> simp [h, h2]

theorem write_csv_ok (db : Db) (s : DState) (t sql : String)
    (h : s.err = none) (hc : exOk (db.copyResult sql) = true) :
    (write_csv db s t sql).err = none ∧
    (write_csv db s t sql).entries.map Prod.fst
      = s.entries.map Prod.fst ++ [csvPath t] := by
  unfold write_csv export_to_csv write_data writestr connection
  cases hcr : db.copyResult sql with
  | error e => rw [hcr] at hc; simp [exOk] at hc
  | ok data => by_cases h2 : s.connected <;> simp [h, hcr, h2, csvPath]

theorem foldl_full_names (db : Db) (hdb : okDb db) (prune : List String) :
    ∀ (tables : List String) (s : DState), s.err = none →
      (List.foldl (fun s table_name =>
          if s.err.isSome then s
          else
            let p := get_related_objects_queries db s table_name prune
            write_csv db p.1 table_name ("SELECT * FROM " ++ table_name)) s tables).err
        = none ∧
      (List.foldl (fun s table_name =>
          if s.err.isSome then s
          else
            let p := get_related_objects_queries db s table_name prune
            write_csv db p.1 table_name ("SELECT * FROM " ++ table_name)) s tables).entries.map
            Prod.fst
        = s.entries.map Prod.fst ++ tables.map csvPath := by
  intro tables
  induction tables with
  | nil => intro s h; simp [h]
  | cons t rest ih =>
      intro s h
      rw [List.foldl_cons]
      have hs : s.err.isSome = false := by rw [h]; rfl
      simp only [hs, Bool.false_eq_true, if_false]
      have hrun := run_err_entries s (nonRecursiveRelationsTag prune)
      have hw := write_csv_ok db (run s (nonRecursiveRelationsTag prune)) t
        ("SELECT * FROM " ++ t) (by rw [hrun.1, h]) (hdb _)
      have hrec := ih _ hw.1
      refine ⟨hrec.1, Eq.trans hrec.2 ?_⟩
      rw [hw.2, hrun.2, List.append_assoc]
      rfl

theorem foldl_partial_names (db : Db) (hdb : okDb db) (prune : List String) :
    ∀ (config : List (String × String)) (s : DState), s.err = none →
      (List.foldl (fun s cfg =>
          if s.err.isSome then s
          else
            let p := get_related_objects_queries db s cfg.1 prune
            let s2 := run p.1 (recursiveRelationsTag prune)
            let _related := runRecursiveRelations db cfg.1 prune
            write_csv db s2 cfg.1 cfg.2) s config).err = none ∧
      (List.foldl (fun s cfg =>
          if s.err.isSome then s
          else
            let p := get_related_objects_queries db s cfg.1 prune
            let s2 := run p.1 (recursiveRelationsTag prune)
            let _related := runRecursiveRelations db cfg.1 prune
            write_csv db s2 cfg.1 cfg.2) s config).entries.map Prod.fst
        = s.entries.map Prod.fst ++ config.map (fun tc => csvPath tc.1) := by
  intro config
  induction config with
  | nil => intro s h; simp [h]
  | cons tc rest ih =>
      intro s h
      rw [List.foldl_cons]
      have hs : s.err.isSome = false := by rw [h]; rfl
      simp only [hs, Bool.false_eq_true, if_false]
      have hrun1 := run_err_entries s (nonRecursiveRelationsTag prune)
      have hrun2 := run_err_entries (run s (nonRecursiveRelationsTag prune))
        (recursiveRelationsTag prune)
      have hw := write_csv_ok db
        (run (run s (nonRecursiveRelationsTag prune)) (recursiveRelationsTag prune)) tc.1
        tc.2 (by rw [hrun2.1, hrun1.1, h]) (hdb _)
      have hrec := ih _ hw.1
      refine ⟨hrec.1, Eq.trans hrec.2 ?_⟩
      rw [hw.2, hrun2.2, hrun1.2, List.append_assoc]
      rfl

/-- Claim C7 (amended): on a dump on which no data extraction fails, the
archive entries are, in order: the schema entry, the sequences entry, one CSV
entry per full table in input order, then one CSV entry per partial root in
input order — and nothing else: no entries for relation targets are ever
produced. -/
theorem c7_entry_order_without_relation_targets (db : Db) (f : List String)
    (cfg : List (String × String)) (hdb : okDb db) :
    (dump db (some f) (some cfg)).entries.map Prod.fst
      = ["dump/schema.sql", "dump/sequences.sql"] ++ f.map csvPath
          ++ cfg.map (fun tc => csvPath tc.1) := by
  have h1 := foldl_full_names db hdb f f (afterSchemaSeq db) rfl
  have h2 := foldl_partial_names db hdb f cfg
    (write_full_tables db (afterSchemaSeq db) f) h1.1
  have he : (dump db (some f) (some cfg)).entries
      = (write_partial_tables db (write_full_tables db (afterSchemaSeq db) f) cfg f).entries :=
    rfl
  rw [he]
  have h2' : (write_partial_tables db (write_full_tables db (afterSchemaSeq db) f) cfg
      f).entries.map Prod.fst
      = (write_full_tables db (afterSchemaSeq db) f).entries.map Prod.fst
        ++ cfg.map (fun tc => csvPath tc.1) := h2.2
  rw [h2', show (write_full_tables db (afterSchemaSeq db) f).entries.map Prod.fst
      = (afterSchemaSeq db).entries.map Prod.fst ++ f.map csvPath from h1.2]
  rfl

/-- Witness for the amended C7 at a concrete oracle and inputs. -/
theorem c7_entry_order_without_relation_targets_witness :
    (dump db0 (some ["groups"]) (some partialEmployees)).entries.map Prod.fst
      = ["dump/schema.sql", "dump/sequences.sql"] ++ ["groups"].map csvPath
          ++ partialEmployees.map (fun tc => csvPath tc.1) :=
  c7_entry_order_without_relation_targets db0 ["groups"] partialEmployees (fun _ => rfl)

/-- Claim C8: both relations queries return exactly the foreign-key rows of
the given table — cross-table edges in the non-recursive query,
self-referencing edges in the recursive one — and, in both, rows whose
target table lies in the caller-supplied exclusion set are omitted (the
`NOT IN` clause is only appended for a non-empty set, which coincides with
filtering since exclusion by the empty set is vacuous). -/
theorem c8_relations_queries_filter (db : Db) (table_name : String) (excl : List String) :
    (∀ r : Row, r ∈ runNonRecursiveRelations db table_name excl ↔
      (r ∈ db.fkRows ∧ r.constraint_type = "FOREIGN KEY" ∧ r.table_name = table_name ∧
        r.table_name ≠ r.foreign_table_name ∧ r.foreign_table_name ∉ excl)) ∧
    (∀ r : Row, r ∈ runRecursiveRelations db table_name excl ↔
      (r ∈ db.fkRows ∧ r.constraint_type = "FOREIGN KEY" ∧ r.table_name = table_name ∧
        r.table_name = r.foreign_table_name ∧ r.foreign_table_name ∉ excl)) := by
  constructor
  · intro r
    unfold runNonRecursiveRelations
    by_cases he : excl.isEmpty = true
    · rw [if_pos he, List.isEmpty_iff.mp he]
      simp only [List.mem_filter, nonRecursiveWhere, Bool.and_eq_true, beq_iff_eq,
        bne_iff_ne, List.not_mem_nil, not_false_iff, and_true]
      tauto
    · rw [if_neg he]
      simp only [List.mem_filter, nonRecursiveWhere, notInFullTables, Bool.and_eq_true,
        beq_iff_eq, bne_iff_ne, Bool.not_eq_true']
      constructor
      · rintro ⟨hmem, ⟨⟨hct, hne2⟩, htn⟩, hnotin⟩
        refine ⟨hmem, hct, htn, hne2, fun hh => ?_⟩
        have hcontra : excl.contains r.foreign_table_name = true :=
          List.elem_eq_true_of_mem hh
        rw [hcontra] at hnotin
        cases hnotin
      · rintro ⟨hmem, hct, htn, hne2, hnotin⟩
        refine ⟨hmem, ⟨⟨hct, hne2⟩, htn⟩, ?_⟩
        cases hx : excl.contains r.foreign_table_name
        · rfl
        · exact absurd (List.mem_of_elem_eq_true hx) hnotin
  · intro r
    unfold runRecursiveRelations
    by_cases he : excl.isEmpty = true
    · rw [if_pos he, List.isEmpty_iff.mp he]
      simp only [List.mem_filter, recursiveWhere, Bool.and_eq_true, beq_iff_eq,
        List.not_mem_nil, not_false_iff, and_true]
      tauto
    · rw [if_neg he]
      simp only [List.mem_filter, recursiveWhere, notInFullTables, Bool.and_eq_true,
        beq_iff_eq, Bool.not_eq_true']
      constructor
      · rintro ⟨hmem, ⟨⟨hct, heq2⟩, htn⟩, hnotin⟩
        refine ⟨hmem, hct, htn, heq2, fun hh => ?_⟩
        have hcontra : excl.contains r.foreign_table_name = true :=
          List.elem_eq_true_of_mem hh
        rw [hcontra] at hnotin
        cases hnotin
      · rintro ⟨hmem, hct, htn, heq2, hnotin⟩
        refine ⟨hmem, ⟨⟨hct, heq2⟩, htn⟩, ?_⟩
        cases hx : excl.contains r.foreign_table_name
        · rfl
        · exact absurd (List.mem_of_elem_eq_true hx) hnotin

theorem lookupEnv_map_overwrite (k v : String) :
    ∀ env : List (String × String), env.any (fun kv => kv.1 == k) = true →
      lookupEnv (env.map (fun kv => if kv.1 == k then (kv.1, v) else kv)) k = some v
  | [], h => by simp at h
  | kv :: rest, h => by
      rw [List.map_cons]
      by_cases hk : (kv.1 == k) = true
      · rw [if_pos hk]
        show (if ((kv.1, v).1 == k) = true then some (kv.1, v).2
          else lookupEnv (rest.map fun kv => if kv.1 == k then (kv.1, v) else kv) k) = some v
        rw [if_pos hk]
      · rw [if_neg hk]
        rw [List.any_cons] at h
        have h' : rest.any (fun kv => kv.1 == k) = true := by
          rcases Bool.or_eq_true_iff.mp h with hx | hx
          · exact absurd hx hk
          · exact hx
        show (if (kv.1 == k) = true then some kv.2
          else lookupEnv (rest.map fun kv => if kv.1 == k then (kv.1, v) else kv) k) = some v
        rw [if_neg hk]
        exact lookupEnv_map_overwrite k v rest h'

theorem lookupEnv_append_new (k v : String) :
    ∀ env : List (String × String), env.any (fun kv => kv.1 == k) = false →
      lookupEnv (env ++ [(k, v)]) k = some v
  | [], _ => by simp [lookupEnv]
  | kv :: rest, h => by
      rw [List.any_cons] at h
      have hk : (kv.1 == k) = false := (Bool.or_eq_false_iff.mp h).1
      have h' : rest.any (fun kv => kv.1 == k) = false := (Bool.or_eq_false_iff.mp h).2
      rw [List.cons_append]
      show (if (kv.1 == k) = true then some kv.2 else lookupEnv (rest ++ [(k, v)]) k) = some v
      rw [if_neg (by rw [hk]; exact Bool.false_ne_true)]
      exact lookupEnv_append_new k v rest h'

theorem lookupEnv_map_other (k v k' : String) (hne : k' ≠ k) :
    ∀ env : List (String × String),
      lookupEnv (env.map (fun kv => if kv.1 == k then (kv.1, v) else kv)) k'
        = lookupEnv env k'
  | [] => rfl
  | kv :: rest => by
      rw [List.map_cons]
      by_cases hk : (kv.1 == k) = true
      · have hkk : kv.1 = k := eq_of_beq hk
        have h2 : ¬ ((kv.1 == k') = true) := by
          rw [hkk]
          intro hh
          exact hne (eq_of_beq hh).symm
        rw [if_pos hk]
        show (if ((kv.1, v).1 == k') = true then some (kv.1, v).2
            else lookupEnv (rest.map fun kv => if kv.1 == k then (kv.1, v) else kv) k')
          = lookupEnv (kv :: rest) k'
        rw [if_neg h2]
        show _ = (if (kv.1 == k') = true then some kv.2 else lookupEnv rest k')
        rw [if_neg h2]
        exact lookupEnv_map_other k v k' hne rest
      · rw [if_neg hk]
        show (if (kv.1 == k') = true then some kv.2
            else lookupEnv (rest.map fun kv => if kv.1 == k then (kv.1, v) else kv) k')
          = lookupEnv (kv :: rest) k'
        show _ = (if (kv.1 == k') = true then some kv.2 else lookupEnv rest k')
        by_cases hq : (kv.1 == k') = true
        · rw [if_pos hq, if_pos hq]
        · rw [if_neg hq, if_neg hq]
          exact lookupEnv_map_other k v k' hne rest

theorem lookupEnv_append_other (k v k' : String) (hne : k' ≠ k) :
    ∀ env : List (String × String),
      lookupEnv (env ++ [(k, v)]) k' = lookupEnv env k'
  | [] => by
      have hkk : ¬ ((k == k') = true) := by
        intro hh
        exact hne (eq_of_beq hh).symm
      show (if (k == k') = true then some v else lookupEnv [] k') = lookupEnv [] k'
      rw [if_neg hkk]
  | kv :: rest => by
      rw [List.cons_append]
      show (if (kv.1 == k') = true then some kv.2 else lookupEnv (rest ++ [(k, v)]) k')
        = (if (kv.1 == k') = true then some kv.2 else lookupEnv rest k')
      by_cases hq : (kv.1 == k') = true
      · rw [if_pos hq, if_pos hq]
      · rw [if_neg hq, if_neg hq]
        exact lookupEnv_append_other k v k' hne rest

theorem lookupEnv_pyDictInsert_self (env : List (String × String)) (k v : String) :
    lookupEnv (pyDictInsert env k v) k = some v := by
  unfold pyDictInsert
  by_cases h : env.any (fun kv => kv.1 == k) = true
  · simp only [h, if_true]
    exact lookupEnv_map_overwrite k v env h
  · have h' : env.any (fun kv => kv.1 == k) = false := by
      cases hx : env.any (fun kv => kv.1 == k)
      · rfl
      · exact absurd hx h
    simp only [h', Bool.false_eq_true, if_false]
    exact lookupEnv_append_new k v env h'

theorem lookupEnv_pyDictInsert_other (env : List (String × String)) (k v k' : String)
    (hne : k' ≠ k) :
    lookupEnv (pyDictInsert env k v) k' = lookupEnv env k' := by
  unfold pyDictInsert
  by_cases h : env.any (fun kv => kv.1 == k) = true
  · simp only [h, if_true]
    exact lookupEnv_map_other k v k' hne env
  · have h' : env.any (fun kv => kv.1 == k) = false := by
      cases hx : env.any (fun kv => kv.1 == k)
      · rfl
      · exact absurd hx h
    simp only [h', Bool.false_eq_true, if_false]
    exact lookupEnv_append_other k v k' hne env

/-- Claim C9 (amended): when a non-empty password is configured, the child
environment is the ambient environment with `PGPASSWORD` bound to that
password and every other variable unchanged; when the password is `None` —
or the empty string, which Python's truthiness treats the same way — the
ambient environment is returned unchanged. -/
theorem c9_pg_dump_environment_nonempty_password (env : List (String × String))
    (password : String) (hp : password ≠ "") :
    lookupEnv (pg_dump_environment env (some password)) "PGPASSWORD" = some password ∧
    (∀ k, k ≠ "PGPASSWORD" →
      lookupEnv (pg_dump_environment env (some password)) k = lookupEnv env k) ∧
    pg_dump_environment env none = env ∧
    pg_dump_environment env (some "") = env := by
  have hpe : password.isEmpty = false := by
    cases hx : password.isEmpty
    · rfl
    · exact absurd ((String.isEmpty_iff password).mp hx) hp
  have hif : pg_dump_environment env (some password) = pyDictInsert env "PGPASSWORD" password := by
    show (if password.isEmpty then env else pyDictInsert env "PGPASSWORD" password) = _
    simp only [hpe, Bool.false_eq_true, if_false]
  refine ⟨?_, ?_, rfl, rfl⟩
  · rw [hif]
    exact lookupEnv_pyDictInsert_self env "PGPASSWORD" password
  · intro k hk
    rw [hif]
    exact lookupEnv_pyDictInsert_other env "PGPASSWORD" password k hk

/-- Witness for the amended C9 at a concrete environment and password. -/
theorem c9_pg_dump_environment_nonempty_password_witness :
    lookupEnv (pg_dump_environment [("PATH", "/usr/bin")] (some "secret")) "PGPASSWORD"
      = some "secret" ∧
    lookupEnv (pg_dump_environment [("PATH", "/usr/bin")] (some "secret")) "PATH"
      = lookupEnv [("PATH", "/usr/bin")] "PATH" :=
  have h := c9_pg_dump_environment_nonempty_password [("PATH", "/usr/bin")] "secret"
    (by decide)
  ⟨h.1, h.2.1 "PATH" (by decide)⟩

end Concopy
